import Mathlib

/-!
Verification of the message-relay bot (`src/index.js`): a shallow embedding
of its command parsing, character-prompt generation, AI-backend gateway,
tool-call resolution, queue drain loop, and dedup-ledger pruning, together
with theorems settling the specification claims.

Text is modelled as Lean `String` (a wrapper around `List Char`); the
JavaScript regular expressions `/@character\s+(.+)/i` and
`/@unhinge\s+(.+)/i` are embedded as an executable leftmost / greedy /
backtracking matcher over character lists.  Network calls (AI backends,
bridge sends, image generation) are external effects: their outcomes are
supplied by an environment record, and each request made is recorded as an
event, so that claims about which backend is called and what is delivered
become statements about the event trace.
-/

set_option autoImplicit false

set_option maxRecDepth 8000

namespace AiText

/-- JavaScript `\s` (whitespace class), restricted to the ASCII range. -/
def jsIsSpace (c : Char) : Bool :=
  c = ' ' || c = '\t' || c = '\n' || c = '\r' || c = '\x0b' || c = '\x0c'

/-- JavaScript `.` without the `s` flag: any character that is not a line
terminator (ASCII range: not `\n` and not `\r`). -/
def jsDot (c : Char) : Bool :=
  !(c = '\n' || c = '\r')

/-- Case-insensitive "the pattern `p` starts here" test, as the `i` flag
compares: both sides lowered. -/
def ciStarts : List Char → List Char → Bool
  | [], _ => true
  | _ :: _, [] => false
  | p :: ps, c :: cs => (p.toLower = c.toLower) && ciStarts ps cs

/-- Case-sensitive "the pattern starts here" test (for `String.includes`). -/
def leadsWith : List Char → List Char → Bool
  | [], _ => true
  | _ :: _, [] => false
  | p :: ps, c :: cs => (p = c) && leadsWith ps cs

/-- `hay` contains `needle` as a contiguous substring (JS `includes`). -/
def containsSub (needle : List Char) : List Char → Bool
  | [] => needle.isEmpty
  | c :: cs => leadsWith needle (c :: cs) || containsSub needle cs

/-- Length of the maximal whitespace run at the front of the list
(the greedy first attempt of `\s+`). -/
def wsRun : List Char → Nat
  | [] => 0
  | c :: cs => if jsIsSpace c then wsRun cs + 1 else 0

/-- Maximal run of `.`-matching characters at the front of the list:
the greedy capture of `(.+)` once its start is fixed. -/
def dotRun : List Char → List Char
  | [] => []
  | c :: cs => if jsDot c then c :: dotRun cs else []

/-- Backtracking search for the number of characters `\s+` consumes: try
`k, k-1, …, 1` and keep the first split after which `(.+)` can match at
least one character.  Mirrors the regex engine giving characters back to
`\s+` one at a time. -/
def findSplit (t : List Char) : Nat → Option Nat
  | 0 => none
  | k + 1 =>
    match t.drop (k + 1) with
    | c :: _ => if jsDot c then some (k + 1) else findSplit t k
    | [] => findSplit t k

/-- Match `\s+(.+)` against the whole of `t` (greedy with backtracking),
returning the text captured by `(.+)` on success. -/
def matchTail (t : List Char) : Option (List Char) :=
  match findSplit t (wsRun t) with
  | some k => some (dotRun (t.drop k))
  | none => none

/-- Leftmost match of `cmd\s+(.+)` with the `i` flag against `text`
(the JS `text.match(/cmd\s+(.+)/i)` capture group, `none` when
`.test` is false). -/
def jsMatchList (cmd : List Char) : List Char → Option (List Char)
  | [] => none
  | c :: cs =>
    if ciStarts cmd (c :: cs) then
      match matchTail ((c :: cs).drop cmd.length) with
      | some cap => some cap
      | none => jsMatchList cmd cs
    else jsMatchList cmd cs

/-- JS `String.trim`: strip leading and trailing whitespace. -/
def trimChars (s : List Char) : List Char :=
  ((s.dropWhile jsIsSpace).reverse.dropWhile jsIsSpace).reverse

/-- JS `String.replace` with a plain-string pattern: replace the first
occurrence of `needle` with the empty string. -/
def dropFirstSub (needle : List Char) : List Char → List Char
  | [] => []
  | c :: cs =>
    if leadsWith needle (c :: cs) then (c :: cs).drop needle.length
    else c :: dropFirstSub needle cs

/-- String-level wrappers. -/
def jsMatch (cmd text : String) : Option String :=
  (jsMatchList cmd.data text.data).map fun l => String.mk l

def jsTrim (s : String) : String := String.mk (trimChars s.data)

def jsLower (s : String) : String := String.mk (s.data.map Char.toLower)

def subStr (needle hay : String) : Bool := containsSub needle.data hay.data

def stripFirst (needle s : String) : String := String.mk (dropFirstSub needle.data s.data)

/-! ## Data model -/

/-- The two AI backends: `openai` is the hosted backend ("Backend A"),
`ollama` the local one ("Backend B"), selected by the process-wide
`USE_OLLAMA` flag. -/
inductive Backend
  | openai
  | ollama
deriving DecidableEq, Repr

/-- One conversation turn, `{ role, content }` as pushed onto a chat's
context array. -/
structure Turn where
  role : String
  content : String
deriving DecidableEq, Repr

/-- A synthesized or structural tool call.  In the source the description
travels as the JSON text `JSON.stringify({description})` and is recovered
by `JSON.parse(...).description`; the round trip is the identity, so the
embedding carries the description directly. -/
structure ToolCall where
  name : String
  description : String
deriving DecidableEq, Repr

/-- The normalised completion message both backend branches produce
(`completion.choices[0].message`): optional text content, optional list of
tool calls (`none` models JS `null`). -/
structure AIMessage where
  content : Option String
  tool_calls : Option (List ToolCall)
deriving DecidableEq, Repr

/-- An item of `messageQueue` (the timestamp plays no role in processing;
the shared `chatContexts` map the item references lives in `BotState`). -/
structure QueueItem where
  chatGuid : String
  text : String
deriving DecidableEq, Repr

/-- Association-list lookup (model of `Map.get`). -/
def getA {α : Type} (k : String) : List (String × α) → Option α
  | [] => none
  | (k2, v) :: rest => if k2 = k then some v else getA k rest

/-- Association-list update (model of `Map.set`: overwrite in place or
append). -/
def setA {α : Type} (k : String) (v : α) : List (String × α) → List (String × α)
  | [] => [(k, v)]
  | (k2, v2) :: rest => if k2 = k then (k, v) :: rest else (k2, v2) :: setA k v rest

/-- The process-wide mutable state the drain loop touches: the backend
selection flag `USE_OLLAMA`, the `chatCharacters` registry and the
`chatContexts` store. -/
structure BotState where
  useOllama : Bool
  chatCharacters : List (String × String)
  chatContexts : List (String × List Turn)
deriving DecidableEq, Repr

/-- Observable effects, in program order: a chat-completion request to a
backend (with the system prompt sent), a text message delivered to the
bridge, an image-delivery attempt (with its outcome), and the pacing
delay. -/
inductive Event
  | aiCall (backend : Backend) (system : String)
  | send (chatGuid message : String)
  | image (chatGuid description : String) (ok : Bool)
  | delay (ms : Nat)
deriving DecidableEq, Repr

/-- Outcome of one outbound bridge send: the `axios.post` either resolves
or rejects (throws). -/
inductive SendOutcome
  | ok
  | err
deriving DecidableEq, Repr

/-- Environment for processing one queue item: outcomes of every external
call its processing may make.  `charGen` is the completion inside
`generateCharacterPrompt`; `ollamaRaw` / `openaiMsg` are the main
completion per backend (`none` = the call throws); `imageOutcomes i` is
the boolean `generateAndSendPicture` returns for the `i`-th picture tool
call (it never throws: it catches internally); `cmdSend`, `replySend`,
`failSend` are the bridge sends. -/
structure ItemEnv where
  charGen : Option String
  cmdSend : SendOutcome
  ollamaRaw : Option String
  openaiMsg : Option AIMessage
  imageOutcomes : Nat → Bool
  replySend : SendOutcome
  failSend : SendOutcome

/-! ## Fixed strings from the source -/

/-- The fixed meta-prompt `generateCharacterPrompt` sends as the system
message. -/
def characterMetaPrompt : String :=
  "You are a prompt engineer. Generate a detailed system prompt for an AI character based on the user's description. The prompt should:\n1. Define the character's personality, mannerisms, and speaking style\n2. Include specific behavioral traits and quirks\n3. Be detailed enough to create a consistent character persona\n4. Start with \"You are [character description]...\"\n\nKeep it concise but comprehensive. Return only the system prompt, nothing else."

/-- The default persona used when no character override is stored. -/
def defaultPersona : String :=
  "You are MyAI, a casual assistant in a private friend group chat. Be brief and natural unless asked to elaborate. Match the group's tone and energy."

/-- The sentinel token Backend B is instructed to emit to request a
picture. -/
def sentinel : String := "[REQUEST_PICTURE]"

/-- Instruction appended to the system prompt on the Ollama branch. -/
def ollamaPictureInstr : String :=
  " If you want to generate and send a picture, just say [REQUEST_PICTURE] followed by your description."

/-- Instruction appended to the system prompt on the OpenAI branch. -/
def openaiPictureInstr : String :=
  " If you want to generate and send a picture or image, use the request_picture tool with a detailed description of what image you want to create."

/-- The signature token checked for (by `includes`) and appended. -/
def signature : String := "— MyAI"

def pictureSuccessReply : String := "✅ Generated and sent a picture! — MyAI"

def pictureFailureReply : String := "❌ Failed to generate image. Please try again. — MyAI"

def genericFailureReply : String := "❌ Error processing message. Please try again. — MyAI"

/-- The fallback persona `generateCharacterPrompt` returns from its
`catch` block. -/
def fallbackPersona (description : String) : String :=
  "You are " ++ description ++ ". Embody this character fully in your responses."

/-- The confirmation reply of a completed `@character` command. -/
def characterConfirm (description : String) : String :=
  "✅ Character updated! I'm now: " ++ description ++ " — MyAI"

/-! ## Operations -/

/-- `generateCharacterPrompt(description)`: sends `characterMetaPrompt` to
the backend selected by `USE_OLLAMA`; on success returns the completion
trimmed, and any error is caught internally and replaced by the fallback
persona, so the function itself never throws.  Returns the backend the
request went to together with the resulting persona text (`r` is the
completion's outcome; `none` = the call errored). -/
def generateCharacterPrompt (useOllama : Bool) (description : String)
    (r : Option String) : Backend × String :=
  let backend := if useOllama then Backend.ollama else Backend.openai
  match r with
  | some content => (backend, jsTrim content)
  | none => (backend, fallbackPersona description)

/-- Result of `parseCommand`: the updated state, the (possibly cleared)
context array, the events so far, whether the function returned `true`
(command handled), and whether it threw (the confirmation send rejected —
the exception propagates to the queue's catch, with every state mutation
made before it kept). -/
structure CmdResult where
  st : BotState
  context : List Turn
  events : List Event
  handled : Bool
  threw : Bool
deriving DecidableEq, Repr

/-- `parseCommand(text, chatGuid, context)`: the `switch (true)` over the
two command regexes, `@character` case first. -/
def parseCommand (st : BotState) (chatGuid text : String) (context : List Turn)
    (env : ItemEnv) : CmdResult :=
  match jsMatch "@character" text with
  | some cap =>
    let description := jsTrim cap
    let gen := generateCharacterPrompt st.useOllama description env.charGen
    let st2 := { st with chatCharacters := setA chatGuid gen.2 st.chatCharacters }
    let confirm := characterConfirm description
    match env.cmdSend with
    | SendOutcome.ok =>
      { st := st2, context := [],
        events := [Event.aiCall gen.1 characterMetaPrompt, Event.send chatGuid confirm],
        handled := true, threw := false }
    | SendOutcome.err =>
      { st := st2, context := [],
        events := [Event.aiCall gen.1 characterMetaPrompt],
        handled := true, threw := true }
  | none =>
    match jsMatch "@unhinge" text with
    | some cap =>
      let flag := jsLower (jsTrim cap) == "true"
      { st := { st with useOllama := flag }, context := context, events := [],
        handled := true, threw := false }
    | none =>
      { st := st, context := context, events := [], handled := false, threw := false }

/-- Post-processing of the Ollama branch (lines 189-206): wrap the raw
reply text as a completion message, and if it contains the sentinel,
synthesize a single `request_picture` tool call whose description is the
text with the first sentinel occurrence removed and trimmed. -/
def ollamaCompletion (raw : String) : AIMessage :=
  if subStr sentinel raw then
    { content := some raw,
      tool_calls := some [{ name := "request_picture",
                            description := jsTrim (stripFirst sentinel raw) }] }
  else { content := some raw, tool_calls := none }

/-- The `for (const toolCall of response.tool_calls)` loop: each
`request_picture` call performs one image-delivery attempt (its outcome
taken from `outcomes`, indexed by how many attempts happened before) and
overwrites the reply with the success or failure confirmation; other tool
names are ignored. -/
def resolveCalls (chatGuid : String) (outcomes : Nat → Bool) :
    List ToolCall → Nat → String → String × List Event
  | [], _, reply => (reply, [])
  | c :: rest, i, reply =>
    if c.name = "request_picture" then
      let ok := outcomes i
      let reply2 := if ok then pictureSuccessReply else pictureFailureReply
      let tail := resolveCalls chatGuid outcomes rest (i + 1) reply2
      (tail.1, Event.image chatGuid c.description ok :: tail.2)
    else resolveCalls chatGuid outcomes rest i reply

/-- Reply and tool-call resolution (lines 241-256): start from
`response.content?.trim() || ""` and, when tool calls are present, run
them. -/
def resolveReply (chatGuid : String) (outcomes : Nat → Bool) (msg : AIMessage) :
    String × List Event :=
  let reply0 := jsTrim (msg.content.getD "")
  match msg.tool_calls with
  | none => (reply0, [])
  | some calls => resolveCalls chatGuid outcomes calls 0 reply0

/-- The message delivered to the bridge: the reply with the signature
appended unless `reply.includes("— MyAI")` already holds. -/
def deliveredText (reply : String) : String :=
  if subStr signature reply then reply else reply ++ " " ++ signature

/-- The context truncation after the user push: `if (context.length > 10)
context.splice(0, context.length - 10)` — drop the oldest turns, keep the
10 most recent. -/
def truncCtx (ctx : List Turn) : List Turn :=
  if ctx.length > 10 then ctx.drop (ctx.length - 10) else ctx

/-- The persona used for a chat:
`chatCharacters.get(chatGuid) || default` — note `||` also replaces an
empty stored string by the default. -/
def personaOf (st : BotState) (chatGuid : String) : String :=
  match getA chatGuid st.chatCharacters with
  | some s => if s = "" then defaultPersona else s
  | none => defaultPersona

/-- Outcome of one iteration of the drain loop's `while` body:
`ok st events skippedDelay` when the iteration reached its end (the
`continue` taken on a handled command skips the trailing 500ms delay,
recorded in `skippedDelay`); `crashed st events` when the `catch` block's
own failure-reply send threw — that exception is uncaught, the async
function rejects, and the loop never reaches `isProcessingQueue = false`. -/
inductive StepResult
  | ok (st : BotState) (events : List Event) (skippedDelay : Bool)
  | crashed (st : BotState) (events : List Event)
deriving DecidableEq, Repr

/-- One iteration of the `while (messageQueue.length > 0)` body of
`processMessageQueue` for the popped item, with every mutation made before
a throw kept (the JS maps and arrays are mutated in place). -/
def processItem (st : BotState) (it : QueueItem) (env : ItemEnv) : StepResult :=
  let ctx0 := (getA it.chatGuid st.chatContexts).getD []
  let st0 := { st with chatContexts := setA it.chatGuid ctx0 st.chatContexts }
  let cmd := parseCommand st0 it.chatGuid it.text ctx0 env
  let st1 := { cmd.st with chatContexts := setA it.chatGuid cmd.context cmd.st.chatContexts }
  if cmd.threw then
    match env.failSend with
    | SendOutcome.ok =>
      StepResult.ok st1 (cmd.events ++ [Event.send it.chatGuid genericFailureReply]) false
    | SendOutcome.err => StepResult.crashed st1 cmd.events
  else if cmd.handled then
    StepResult.ok st1 cmd.events true
  else
    let ctx1 := truncCtx (cmd.context ++ [{ role := "user", content := it.text }])
    let st2 := { st1 with chatContexts := setA it.chatGuid ctx1 st1.chatContexts }
    let persona := personaOf st2 it.chatGuid
    let backend := if st2.useOllama then Backend.ollama else Backend.openai
    let sys := persona ++ (if st2.useOllama then ollamaPictureInstr else openaiPictureInstr)
    let callEv := Event.aiCall backend sys
    let msgOpt : Option AIMessage :=
      if st2.useOllama then env.ollamaRaw.map ollamaCompletion else env.openaiMsg
    match msgOpt with
    | none =>
      match env.failSend with
      | SendOutcome.ok =>
        StepResult.ok st2
          (cmd.events ++ [callEv, Event.send it.chatGuid genericFailureReply]) false
      | SendOutcome.err => StepResult.crashed st2 (cmd.events ++ [callEv])
    | some msg =>
      let res := resolveReply it.chatGuid env.imageOutcomes msg
      let ctx2 := ctx1 ++ [{ role := "assistant", content := res.1 }]
      let st3 := { st2 with chatContexts := setA it.chatGuid ctx2 st2.chatContexts }
      match env.replySend with
      | SendOutcome.ok =>
        StepResult.ok st3
          (cmd.events ++ [callEv] ++ res.2 ++ [Event.send it.chatGuid (deliveredText res.1)])
          false
      | SendOutcome.err =>
        match env.failSend with
        | SendOutcome.ok =>
          StepResult.ok st3
            (cmd.events ++ [callEv] ++ res.2 ++ [Event.send it.chatGuid genericFailureReply])
            false
        | SendOutcome.err => StepResult.crashed st3 (cmd.events ++ [callEv] ++ res.2)

/-- Result of a drain: final state, event trace, whether the loop crashed
(leaving the reentrancy guard set), and the items never popped. -/
structure DrainOut where
  st : BotState
  events : List Event
  crashed : Bool
  remaining : List QueueItem
deriving DecidableEq, Repr

/-- The `while (messageQueue.length > 0)` loop over a snapshot of the
queue paired with each item's external outcomes.  A completed iteration is
followed by the 500ms pacing delay unless it ended in `continue`; a
crashed iteration aborts the whole drain. -/
def drainLoop (st : BotState) : List (QueueItem × ItemEnv) → DrainOut
  | [] => { st := st, events := [], crashed := false, remaining := [] }
  | (it, env) :: rest =>
    match processItem st it env with
    | StepResult.ok st1 evs skip =>
      let tail := drainLoop st1 rest
      { st := tail.st,
        events := evs ++ (if skip then [] else [Event.delay 500]) ++ tail.events,
        crashed := tail.crashed, remaining := tail.remaining }
    | StepResult.crashed st1 evs =>
      { st := st1, events := evs, crashed := true, remaining := rest.map Prod.fst }

/-- The module-level queue state: `messageQueue` and the reentrancy guard
`isProcessingQueue` alongside the bot state. -/
structure SysState where
  bot : BotState
  queue : List QueueItem
  isProcessingQueue : Bool
deriving DecidableEq, Repr

/-- `processMessageQueue()`: returns immediately when a drain is already
running or the queue is empty; otherwise sets the guard, drains, and —
only if no iteration crashed — resets the guard to `false`. -/
def processMessageQueue (sys : SysState) (envs : List ItemEnv) : SysState × List Event :=
  if sys.isProcessingQueue || sys.queue.isEmpty then (sys, [])
  else
    let d := drainLoop sys.bot (sys.queue.zip envs)
    ({ bot := d.st, queue := d.remaining, isProcessingQueue := d.crashed }, d.events)

/-- End-of-cycle pruning of a dedup ledger (`seen` / `processedMessages`),
the JS `Set` modelled as its elements in insertion order:
`Array.from(s).slice(-500)` keeps the last 500 when the size exceeds
1000. -/
def pruneLedger (s : List String) : List String :=
  if s.length > 1000 then s.drop (s.length - 500) else s

/-- The Poller's trigger test: case-insensitive substring search of the
message text against the configured trigger plus the two command
prefixes. -/
def triggerMatch (trigger text : String) : Bool :=
  [trigger, "@character", "@unhinge"].any fun t => subStr (jsLower t) (jsLower text)

/-- The state at process start: flag false, no characters, no contexts. -/
def initialBot : BotState :=
  { useOllama := false, chatCharacters := [], chatContexts := [] }

/-! ## Derived views of a step and a drain -/

/-- Final state of one iteration, whatever its outcome. -/
def stepState : StepResult → BotState
  | StepResult.ok st _ _ => st
  | StepResult.crashed st _ => st

/-- Events of one iteration, whatever its outcome. -/
def stepEvents : StepResult → List Event
  | StepResult.ok _ e _ => e
  | StepResult.crashed _ e => e

/-- The events one completed iteration contributes to the drain trace
(its own events, then the pacing delay unless the iteration ended in
`continue`). -/
def itemTrace (st : BotState) (it : QueueItem) (env : ItemEnv) : List Event :=
  match processItem st it env with
  | StepResult.ok _ evs skip => evs ++ (if skip then [] else [Event.delay 500])
  | StepResult.crashed _ evs => evs

/-- The state after one iteration. -/
def stepNext (st : BotState) (it : QueueItem) (env : ItemEnv) : BotState :=
  stepState (processItem st it env)

/-- Did the iteration complete (reach the end of the loop body or its
`continue`), as opposed to crashing out of the drain? -/
def isOkStep : StepResult → Bool
  | StepResult.ok _ _ _ => true
  | StepResult.crashed _ _ => false

/-- Did a completed iteration take the `continue` that skips the pacing
delay?  (`false` for a crashed iteration.) -/
def stepSkip : StepResult → Bool
  | StepResult.ok _ _ s => s
  | StepResult.crashed _ _ => false

/-- Item-by-item, first-in-first-out decomposition of a drain's event
trace. -/
def drainTrace (st : BotState) : List (QueueItem × ItemEnv) → List Event
  | [] => []
  | (it, env) :: rest => itemTrace st it env ++ drainTrace (stepNext st it env) rest

/-- Every context buffer in the store has at most 11 turns. -/
def MapBound (m : List (String × List Turn)) : Prop :=
  ∀ chat, ((getA chat m).getD []).length ≤ 11

/-! ## Concrete fixtures -/

/-- A benign environment: every external call succeeds, and the hosted
backend replies "hello" with no tool call. -/
def envBase : ItemEnv :=
  { charGen := some "Generated persona", cmdSend := SendOutcome.ok,
    ollamaRaw := some "hi there",
    openaiMsg := some { content := some "hello", tool_calls := none },
    imageOutcomes := fun _ => true,
    replySend := SendOutcome.ok, failSend := SendOutcome.ok }

/-- An environment where the main completion call rejects and the
failure-reply send in the `catch` block rejects too. -/
def envDoubleFault : ItemEnv :=
  { envBase with openaiMsg := none, failSend := SendOutcome.err }

/-- An environment where persona synthesis errors but the bridge works. -/
def envCharFail : ItemEnv := { envBase with charGen := none }

/-- A plain (non-command) trigger message. -/
def itemAva : QueueItem := { chatGuid := "c1", text := "@ava hi" }

/-! ## Helper lemmas -/

theorem getA_setA {α : Type} (k chat : String) (v : α) (m : List (String × α)) :
    getA chat (setA k v m) = if k = chat then some v else getA chat m := by
  induction m with
  | nil =>
    by_cases h : k = chat <;> simp [getA, setA, h]
  | cons p rest ih =>
    obtain ⟨k2, v2⟩ := p
    by_cases h2 : k2 = k
    · subst h2
      by_cases h : k2 = chat <;> simp [getA, setA, h]
    · by_cases h : k2 = chat
      · subst h
        have hk : ¬k = k2 := fun e => h2 e.symm
        simp [getA, setA, h2, hk]
      · simp [getA, setA, h2, h, ih]

theorem drop_eq_reverse_take {α : Type} (l : List α) (n : Nat) :
    l.drop (l.length - n) = (l.reverse.take n).reverse := by
  rw [List.reverse_take, List.reverse_reverse, List.length_reverse]

theorem parseCommand_not_matched (st : BotState) (chatGuid text : String)
    (ctx : List Turn) (env : ItemEnv)
    (hc : jsMatch "@character" text = none) (hu : jsMatch "@unhinge" text = none) :
    parseCommand st chatGuid text ctx env =
      { st := st, context := ctx, events := [], handled := false, threw := false } := by
  simp [parseCommand, hc, hu]

/-! ## Claim theorems -/

/-- Claim C1, counterexample: with the Backend Selection Flag set to
`true`, processing `@character a pirate` sends the fixed meta-prompt to
the local backend (Ollama), not to OpenAI as the claim states. -/
theorem character_prompt_backend_counterexample :
    (parseCommand { useOllama := true, chatCharacters := [], chatContexts := [] } "c1"
        "@character a pirate" [] envBase).events.head? =
      some (Event.aiCall Backend.ollama characterMetaPrompt) ∧
    (parseCommand { useOllama := true, chatCharacters := [], chatContexts := [] } "c1"
        "@character a pirate" [] envBase).events.head? ≠
      some (Event.aiCall Backend.openai characterMetaPrompt) := by
  constructor <;> decide

/-- Claim C1, amended: for every `@character` invocation the persona
system-prompt is synthesized by sending the fixed meta-prompt to the
backend selected by the process-wide flag — Ollama when it is true,
OpenAI when it is false. -/
theorem character_prompt_backend_follows_flag (st : BotState) (chatGuid text : String)
    (ctx : List Turn) (env : ItemEnv) (cap : String)
    (h : jsMatch "@character" text = some cap) :
    (parseCommand st chatGuid text ctx env).events.head? =
      some (Event.aiCall (if st.useOllama then Backend.ollama else Backend.openai)
        characterMetaPrompt) := by
  cases hs : env.cmdSend <;> cases hg : env.charGen <;>
    simp [parseCommand, h, hs, hg, generateCharacterPrompt]

/-- Witness for C1's amended theorem at a concrete input. -/
theorem character_prompt_backend_follows_flag_witness :
    (parseCommand initialBot "c1" "@character a pirate" [] envBase).events.head? =
      some (Event.aiCall Backend.openai characterMetaPrompt) := by
  have h := character_prompt_backend_follows_flag initialBot "c1" "@character a pirate"
    [] envBase "a pirate" (by decide)
  simpa [initialBot] using h

/-- Claim C2, evaluation at the failing input: one queued item whose AI
call rejects.  When the failure-reply send works, the exception is caught
per item, the generic failure reply is delivered, the delay runs and the
guard is reset — but when the failure-reply send itself rejects, the
`catch` block rethrows, `isProcessingQueue` is never reset, and the guard
stays `true` permanently. -/
theorem guard_wedged_on_double_fault :
    (processMessageQueue { bot := initialBot, queue := [itemAva], isProcessingQueue := false }
        [envDoubleFault]).1.isProcessingQueue = true ∧
    (processMessageQueue { bot := initialBot, queue := [itemAva], isProcessingQueue := false }
        [{ envDoubleFault with failSend := SendOutcome.ok }]).1.isProcessingQueue = false ∧
    (processMessageQueue { bot := initialBot, queue := [itemAva], isProcessingQueue := false }
        [{ envDoubleFault with failSend := SendOutcome.ok }]).2 =
      [Event.aiCall Backend.openai (defaultPersona ++ openaiPictureInstr),
       Event.send "c1" genericFailureReply, Event.delay 500] := by
  refine ⟨by decide, by decide, by decide⟩

/-- Claim C5, counterexample: the fallback persona the code returns ends
in "… fully in your responses.", not the claimed "… fully.". -/
theorem character_fallback_text_counterexample :
    (generateCharacterPrompt false "a pirate" none).2 ≠
      "You are a pirate. Embody this character fully." ∧
    (generateCharacterPrompt false "a pirate" none).2 =
      "You are a pirate. Embody this character fully in your responses." := by
  constructor <;> decide

/-- Claim C5, amended: when persona synthesis fails, the interpreter falls
back to exactly "You are `<description>`. Embody this character fully in
your responses.", never raises, and completes the command: override
stored, context cleared, confirmation sent, handled returned. -/
theorem character_fallback_completes (st : BotState) (chatGuid text : String)
    (ctx : List Turn) (env : ItemEnv) (cap : String)
    (h : jsMatch "@character" text = some cap)
    (hg : env.charGen = none) (hs : env.cmdSend = SendOutcome.ok) :
    parseCommand st chatGuid text ctx env =
      { st := { st with chatCharacters := (setA chatGuid (fallbackPersona (jsTrim cap)) st.chatCharacters) },
        context := [],
        events := [Event.aiCall (if st.useOllama then Backend.ollama else Backend.openai)
                     characterMetaPrompt,
                   Event.send chatGuid (characterConfirm (jsTrim cap))],
        handled := true, threw := false } := by
  simp [parseCommand, h, hg, hs, generateCharacterPrompt]

/-- Witness for C5's amended theorem at a concrete input. -/
theorem character_fallback_completes_witness :
    parseCommand initialBot "c1" "@character a pirate" [] envCharFail =
      { st := { initialBot with chatCharacters := (setA "c1" (fallbackPersona "a pirate") initialBot.chatCharacters) },
        context := [],
        events := [Event.aiCall Backend.openai characterMetaPrompt,
                   Event.send "c1" (characterConfirm "a pirate")],
        handled := true, threw := false } := by
  have h := character_fallback_completes initialBot "c1" "@character a pirate" [] envCharFail
    "a pirate" (by decide) (by decide) (by decide)
  simpa [initialBot, jsTrim, trimChars] using h

/-- Claim C8: after the end-of-cycle prune a dedup ledger holds at most
1000 entries, and whenever its size exceeded 1000 the prune retains
exactly the 500 most recently added entries (the last 500 in insertion
order). -/
theorem ledger_prune_spec (s : List String) :
    (pruneLedger s).length ≤ 1000 ∧
    (s.length > 1000 →
      pruneLedger s = (s.reverse.take 500).reverse ∧ (pruneLedger s).length = 500) := by
  refine ⟨?_, fun h => ⟨?_, ?_⟩⟩
  · by_cases h : s.length > 1000 <;> simp [pruneLedger, h] <;> omega
  · simp [pruneLedger, h, drop_eq_reverse_take]
  · simp [pruneLedger, h]
    omega

/-- Witness for C8 at a ledger of 1001 entries. -/
theorem ledger_prune_spec_witness :
    (pruneLedger (List.replicate 1001 "m")).length ≤ 1000 ∧
    (pruneLedger (List.replicate 1001 "m") =
        ((List.replicate 1001 "m").reverse.take 500).reverse ∧
      (pruneLedger (List.replicate 1001 "m")).length = 500) :=
  ⟨(ledger_prune_spec _).1, (ledger_prune_spec _).2 (by simp)⟩

theorem setA_setA {α : Type} (k : String) (v w : α) (m : List (String × α)) :
    setA k v (setA k w m) = setA k v m := by
  induction m with
  | nil => simp [setA]
  | cons p rest ih =>
    obtain ⟨k2, v2⟩ := p
    by_cases h : k2 = k <;> simp [setA, h, ih]

/-- Full shape of the iteration for a non-command item whose completion
call succeeds and whose reply delivery succeeds. -/
theorem processItem_normal_ok (st : BotState) (it : QueueItem) (env : ItemEnv)
    (msg : AIMessage)
    (hc : jsMatch "@character" it.text = none) (hu : jsMatch "@unhinge" it.text = none)
    (hm : (if st.useOllama then env.ollamaRaw.map ollamaCompletion else env.openaiMsg) =
      some msg)
    (hr : env.replySend = SendOutcome.ok) :
    processItem st it env =
      StepResult.ok
        { st with chatContexts := (setA it.chatGuid
            (truncCtx (((getA it.chatGuid st.chatContexts).getD []) ++
                [{ role := "user", content := it.text }]) ++
              [{ role := "assistant",
                 content := (resolveReply it.chatGuid env.imageOutcomes msg).1 }])
            st.chatContexts) }
        ([Event.aiCall (if st.useOllama then Backend.ollama else Backend.openai)
            (personaOf st it.chatGuid ++
              (if st.useOllama then ollamaPictureInstr else openaiPictureInstr))] ++
          (resolveReply it.chatGuid env.imageOutcomes msg).2 ++
          [Event.send it.chatGuid
            (deliveredText (resolveReply it.chatGuid env.imageOutcomes msg).1)])
        false := by
  cases hb : st.useOllama <;> rw [hb] at hm <;> simp at hm
  case false =>
    simp only [processItem, parseCommand_not_matched, hc, hu, hb]
    simp [hm, hr, setA_setA, personaOf]
  case true =>
    obtain ⟨raw, hraw, hmsg⟩ := hm
    subst hmsg
    simp only [processItem, parseCommand_not_matched, hc, hu, hb]
    simp [hraw, hr, setA_setA, personaOf]

/-- The last element of a context that just had a turn appended survives
the sliding-window truncation. -/
theorem mem_truncCtx_concat (l : List Turn) (a : Turn) : a ∈ truncCtx (l ++ [a]) := by
  unfold truncCtx
  split
  next h =>
    have hle : (l ++ [a]).length - 10 ≤ l.length := by
      simp
    rw [List.drop_append_of_le_length hle]
    simp
  next _ => simp

theorem truncCtx_length_le (l : List Turn) : (truncCtx l).length ≤ 10 := by
  unfold truncCtx
  split
  next h => simp; omega
  next h => omega

theorem truncCtx_reverse_take (l : List Turn) : truncCtx l = (l.reverse.take 10).reverse := by
  unfold truncCtx
  split
  next h => exact drop_eq_reverse_take l 10
  next h =>
    have hle : l.reverse.length ≤ 10 := by simp; omega
    rw [List.take_of_length_le hle, List.reverse_reverse]

theorem mapBound_setA {m : List (String × List Turn)} (h : MapBound m) {k : String}
    {v : List Turn} (hv : v.length ≤ 11) : MapBound (setA k v m) := by
  intro chat
  rw [getA_setA]
  split
  · simpa using hv
  · exact h chat

theorem concat_length_le (l : List Turn) (a : Turn) (h : l.length ≤ 10) :
    (l ++ [a]).length ≤ 11 := by
  simp
  omega

/-- For any non-command item, the iteration makes exactly one main
completion request, to the backend selected by the flag. -/
theorem processItem_normal_aiCall (st : BotState) (it : QueueItem) (env : ItemEnv)
    (hc : jsMatch "@character" it.text = none) (hu : jsMatch "@unhinge" it.text = none) :
    ∃ sys, Event.aiCall (if st.useOllama then Backend.ollama else Backend.openai) sys ∈
      stepEvents (processItem st it env) := by
  refine ⟨personaOf st it.chatGuid ++
    (if st.useOllama then ollamaPictureInstr else openaiPictureInstr), ?_⟩
  cases hb : st.useOllama
  case false =>
    cases hm : env.openaiMsg <;> cases hr : env.replySend <;> cases hf : env.failSend <;>
      simp [processItem, parseCommand_not_matched, hc, hu, hb, hm, hr, hf, stepEvents,
        personaOf]
  case true =>
    cases hm : env.ollamaRaw <;> cases hr : env.replySend <;> cases hf : env.failSend <;>
      simp [processItem, parseCommand_not_matched, hc, hu, hb, hm, hr, hf, stepEvents,
        personaOf]

/-- For any non-command item, the incoming text is pushed as a user turn
and survives to the final context, whatever the later outcome. -/
theorem processItem_normal_userTurn (st : BotState) (it : QueueItem) (env : ItemEnv)
    (hc : jsMatch "@character" it.text = none) (hu : jsMatch "@unhinge" it.text = none) :
    ({ role := "user", content := it.text } : Turn) ∈
      ((getA it.chatGuid (stepState (processItem st it env)).chatContexts).getD []) := by
  cases hb : st.useOllama
  case false =>
    cases hm : env.openaiMsg <;> cases hr : env.replySend <;> cases hf : env.failSend <;>
      simp [processItem, parseCommand_not_matched, hc, hu, hb, hm, hr, hf, stepState,
        getA_setA] <;>
      first
        | exact mem_truncCtx_concat _ _
        | exact List.mem_append_left _ (mem_truncCtx_concat _ _)
  case true =>
    cases hm : env.ollamaRaw <;> cases hr : env.replySend <;> cases hf : env.failSend <;>
      simp [processItem, parseCommand_not_matched, hc, hu, hb, hm, hr, hf, stepState,
        getA_setA] <;>
      first
        | exact mem_truncCtx_concat _ _
        | exact List.mem_append_left _ (mem_truncCtx_concat _ _)

/-- Only the `@unhinge` command changes the backend selection flag. -/
theorem processItem_flag_invariant (st : BotState) (it : QueueItem) (env : ItemEnv)
    (hu : jsMatch "@unhinge" it.text = none) :
    (stepState (processItem st it env)).useOllama = st.useOllama := by
  cases hch : jsMatch "@character" it.text with
  | some cap =>
    cases hs : env.cmdSend <;> cases hg : env.charGen <;> cases hf : env.failSend <;>
      simp [processItem, parseCommand, hch, hu, hs, hg, hf, stepState,
        generateCharacterPrompt]
  | none =>
    cases hb : st.useOllama
    case false =>
      cases hm : env.openaiMsg <;> cases hr : env.replySend <;> cases hf : env.failSend <;>
        simp [processItem, parseCommand_not_matched, hch, hu, hb, hm, hr, hf, stepState]
    case true =>
      cases hm : env.ollamaRaw <;> cases hr : env.replySend <;> cases hf : env.failSend <;>
        simp [processItem, parseCommand_not_matched, hch, hu, hb, hm, hr, hf, stepState]

/-- When the failure-reply send cannot throw, no iteration crashes. -/
theorem processItem_no_crash (st : BotState) (it : QueueItem) (env : ItemEnv)
    (hf : env.failSend = SendOutcome.ok) :
    isOkStep (processItem st it env) = true := by
  cases hch : jsMatch "@character" it.text with
  | some cap =>
    cases hs : env.cmdSend <;> cases hg : env.charGen <;>
      simp [processItem, parseCommand, hch, hs, hg, hf, isOkStep, generateCharacterPrompt]
  | none =>
    cases huh : jsMatch "@unhinge" it.text with
    | some cap =>
      simp [processItem, parseCommand, hch, huh, isOkStep]
    | none =>
      cases hb : st.useOllama
      case false =>
        cases hm : env.openaiMsg <;> cases hr : env.replySend <;>
          simp [processItem, parseCommand_not_matched, hch, huh, hb, hm, hr, hf, isOkStep]
      case true =>
        cases hm : env.ollamaRaw <;> cases hr : env.replySend <;>
          simp [processItem, parseCommand_not_matched, hch, huh, hb, hm, hr, hf, isOkStep]

/-- A non-command iteration never takes the delay-skipping `continue`. -/
theorem processItem_normal_not_skipped (st : BotState) (it : QueueItem) (env : ItemEnv)
    (hc : jsMatch "@character" it.text = none) (hu : jsMatch "@unhinge" it.text = none) :
    stepSkip (processItem st it env) = false := by
  cases hb : st.useOllama
  case false =>
    cases hm : env.openaiMsg <;> cases hr : env.replySend <;> cases hf : env.failSend <;>
      simp [processItem, parseCommand_not_matched, hc, hu, hb, hm, hr, hf, stepSkip]
  case true =>
    cases hm : env.ollamaRaw <;> cases hr : env.replySend <;> cases hf : env.failSend <;>
      simp [processItem, parseCommand_not_matched, hc, hu, hb, hm, hr, hf, stepSkip]

/-- Claim C3, counterexample: for the hosted backend replying "hello", the
assistant turn stored in the context is "hello" while the delivered
message is "hello — MyAI" — the stored turn does not equal the delivered
text. -/
theorem stored_turn_vs_delivered_counterexample :
    getA "c1" (stepState (processItem initialBot itemAva envBase)).chatContexts =
      some [{ role := "user", content := "@ava hi" },
            { role := "assistant", content := "hello" }] ∧
    (stepEvents (processItem initialBot itemAva envBase)).getLast? =
      some (Event.send "c1" "hello — MyAI") ∧
    ("hello" : String) ≠ "hello — MyAI" := by
  refine ⟨by decide, by decide, by decide⟩

/-- Claim C3, amended: for every non-command item whose completion and
reply delivery succeed, the assistant turn pushed onto the context is the
resolved reply as returned (without the forced suffix), the delivered
message is that reply with " — MyAI" appended when not already contained,
the push happens in the same iteration that delivers, and the stored turn
equals the delivered text exactly when the reply already contains
"— MyAI". -/
theorem stored_turn_vs_delivered (st : BotState) (it : QueueItem) (env : ItemEnv)
    (msg : AIMessage)
    (hc : jsMatch "@character" it.text = none) (hu : jsMatch "@unhinge" it.text = none)
    (hm : (if st.useOllama then env.ollamaRaw.map ollamaCompletion else env.openaiMsg) =
      some msg)
    (hr : env.replySend = SendOutcome.ok) :
    (∃ rest, getA it.chatGuid (stepState (processItem st it env)).chatContexts =
      some (rest ++
        [{ role := "assistant",
           content := (resolveReply it.chatGuid env.imageOutcomes msg).1 }])) ∧
    (stepEvents (processItem st it env)).getLast? =
      some (Event.send it.chatGuid
        (deliveredText (resolveReply it.chatGuid env.imageOutcomes msg).1)) ∧
    (subStr signature (resolveReply it.chatGuid env.imageOutcomes msg).1 = true →
      deliveredText (resolveReply it.chatGuid env.imageOutcomes msg).1 =
        (resolveReply it.chatGuid env.imageOutcomes msg).1) ∧
    (subStr signature (resolveReply it.chatGuid env.imageOutcomes msg).1 = false →
      deliveredText (resolveReply it.chatGuid env.imageOutcomes msg).1 ≠
        (resolveReply it.chatGuid env.imageOutcomes msg).1) := by
  rw [processItem_normal_ok st it env msg hc hu hm hr]
  refine ⟨?_, ?_, ?_, ?_⟩
  · refine ⟨truncCtx (((getA it.chatGuid st.chatContexts).getD []) ++
      [{ role := "user", content := it.text }]), ?_⟩
    simp [stepState, getA_setA]
  · simp only [stepEvents, ← List.cons_append, List.getLast?_concat]
  · intro hs
    simp [deliveredText, hs]
  · intro hs heq
    have hlen := congrArg String.length heq
    simp only [signature] at hs
    simp [deliveredText, hs, signature] at hlen
    have h1 : (" " : String).length = 1 := by decide
    have h6 : ("— MyAI" : String).length = 6 := by decide
    rw [h1, h6] at hlen
    omega

/-- Witness for C3's amended theorem at a concrete input. -/
theorem stored_turn_vs_delivered_witness :
    (∃ rest, getA "c1" (stepState (processItem initialBot itemAva envBase)).chatContexts =
      some (rest ++
        [{ role := "assistant",
           content := (resolveReply "c1" envBase.imageOutcomes
             { content := some "hello", tool_calls := none }).1 }])) ∧
    (stepEvents (processItem initialBot itemAva envBase)).getLast? =
      some (Event.send "c1"
        (deliveredText (resolveReply "c1" envBase.imageOutcomes
          { content := some "hello", tool_calls := none }).1)) ∧
    (subStr signature (resolveReply "c1" envBase.imageOutcomes
        { content := some "hello", tool_calls := none }).1 = true →
      deliveredText (resolveReply "c1" envBase.imageOutcomes
          { content := some "hello", tool_calls := none }).1 =
        (resolveReply "c1" envBase.imageOutcomes
          { content := some "hello", tool_calls := none }).1) ∧
    (subStr signature (resolveReply "c1" envBase.imageOutcomes
        { content := some "hello", tool_calls := none }).1 = false →
      deliveredText (resolveReply "c1" envBase.imageOutcomes
          { content := some "hello", tool_calls := none }).1 ≠
        (resolveReply "c1" envBase.imageOutcomes
          { content := some "hello", tool_calls := none }).1) :=
  stored_turn_vs_delivered initialBot itemAva envBase
    { content := some "hello", tool_calls := none }
    (by decide) (by decide) (by decide) (by decide)

/-- Claim C6: a Backend B reply text containing the sentinel is resolved
identically to a Backend A structural `request_picture` tool call whose
description is the text with the sentinel stripped: the same reply and the
same single image-delivery attempt result, the reply is the success
confirmation or the failure variant, and the raw sentinel never survives
into the reply. -/
theorem sentinel_refines_structural_tool_call (raw : String) (cont : Option String)
    (outcomes : Nat → Bool) (chat : String)
    (h : subStr sentinel raw = true) :
    resolveReply chat outcomes (ollamaCompletion raw) =
      resolveReply chat outcomes
        { content := cont,
          tool_calls := some [{ name := "request_picture",
                                description := jsTrim (stripFirst sentinel raw) }] } ∧
    (resolveReply chat outcomes (ollamaCompletion raw)).2 =
      [Event.image chat (jsTrim (stripFirst sentinel raw)) (outcomes 0)] ∧
    ((resolveReply chat outcomes (ollamaCompletion raw)).1 = pictureSuccessReply ∨
      (resolveReply chat outcomes (ollamaCompletion raw)).1 = pictureFailureReply) ∧
    subStr sentinel (resolveReply chat outcomes (ollamaCompletion raw)).1 = false := by
  cases ho : outcomes 0 <;>
    simp [resolveReply, ollamaCompletion, h, resolveCalls, ho] <;> decide

/-- Witness for C6 at the spec's own example, "[REQUEST_PICTURE] a red
bicycle". -/
theorem sentinel_refines_structural_tool_call_witness :
    (resolveReply "c1" (fun _ => true)
        (ollamaCompletion "[REQUEST_PICTURE] a red bicycle")).2 =
      [Event.image "c1" "a red bicycle" true] := by
  have h := (sentinel_refines_structural_tool_call "[REQUEST_PICTURE] a red bicycle"
    (some "x") (fun _ => true) "c1" (by decide)).2.1
  rw [h]
  decide

/-- Claim C7: `@unhinge <arg>` (when the text is not also an `@character`
command) sets the process-wide flag to true exactly when the argument,
trimmed and lowercased, is "true"; it returns handled with no
user-visible reply and no state change besides the flag; every
non-command item is then served by the backend the current flag selects,
in whatever chat; and nothing except a matching `@unhinge` text changes
the flag. -/
theorem unhinge_sets_global_flag :
    (∀ (st : BotState) (chatGuid text : String) (ctx : List Turn) (env : ItemEnv)
        (v : String),
      jsMatch "@character" text = none → jsMatch "@unhinge" text = some v →
      parseCommand st chatGuid text ctx env =
        { st := { st with useOllama := (jsLower (jsTrim v) == "true") }, context := ctx,
          events := [], handled := true, threw := false }) ∧
    (∀ (st : BotState) (it : QueueItem) (env : ItemEnv),
      jsMatch "@character" it.text = none → jsMatch "@unhinge" it.text = none →
      ∃ sys, Event.aiCall (if st.useOllama then Backend.ollama else Backend.openai) sys ∈
        stepEvents (processItem st it env)) ∧
    (∀ (st : BotState) (it : QueueItem) (env : ItemEnv),
      jsMatch "@unhinge" it.text = none →
      (stepState (processItem st it env)).useOllama = st.useOllama) := by
  refine ⟨?_, ?_, ?_⟩
  · intro st chatGuid text ctx env v hc hu
    simp [parseCommand, hc, hu]
  · intro st it env hc hu
    exact processItem_normal_aiCall st it env hc hu
  · intro st it env hu
    exact processItem_flag_invariant st it env hu

/-- Witness for C7 at concrete inputs: "@unhinge TRUE " sets the flag
true with no reply; the non-command item "@ava hi" is served by the
backend the flag selects and leaves the flag unchanged. -/
theorem unhinge_sets_global_flag_witness :
    parseCommand initialBot "c1" "@unhinge TRUE " [] envBase =
      { st := { initialBot with useOllama := true }, context := [], events := [],
        handled := true, threw := false } ∧
    (∃ sys, Event.aiCall Backend.openai sys ∈
      stepEvents (processItem initialBot itemAva envBase)) ∧
    (stepState (processItem initialBot itemAva envBase)).useOllama =
      initialBot.useOllama := by
  refine ⟨?_, ?_, ?_⟩
  · have h := unhinge_sets_global_flag.1 initialBot "c1" "@unhinge TRUE " [] envBase
      "TRUE " (by decide) (by decide)
    rw [h]
    decide
  · have h := unhinge_sets_global_flag.2.1 initialBot itemAva envBase
      (by decide) (by decide)
    simpa [initialBot] using h
  · exact unhinge_sets_global_flag.2.2 initialBot itemAva envBase (by decide)

/-- Claim C10, counterexample: "@unhinge on @character" contains the
token "@character" with no whitespace-separated description after it, yet
the interpreter handles it (as an `@unhinge` command), so it does not
fall through to normal AI processing. -/
theorem character_no_description_counterexample :
    subStr "@character" (jsLower "@unhinge on @character") = true ∧
    jsMatch "@character" "@unhinge on @character" = none ∧
    (parseCommand initialBot "c1" "@unhinge on @character" [] envBase).handled = true := by
  refine ⟨by decide, by decide, by decide⟩

/-- Claim C10, amended: a message containing "@character" with no
whitespace-separated description after it, provided it does not match the
`@unhinge` command pattern either, still matches the Poller's trigger
test, is not handled by the Command Interpreter, and falls through to
normal AI processing: it is appended to the chat's context as a user turn
and a completion is requested from the selected backend. -/
theorem character_without_description_falls_through (st : BotState) (trigger : String)
    (it : QueueItem) (ctx : List Turn) (env : ItemEnv)
    (hsub : subStr "@character" (jsLower it.text) = true)
    (hc : jsMatch "@character" it.text = none)
    (hu : jsMatch "@unhinge" it.text = none) :
    triggerMatch trigger it.text = true ∧
    (parseCommand st it.chatGuid it.text ctx env).handled = false ∧
    ({ role := "user", content := it.text } : Turn) ∈
      ((getA it.chatGuid (stepState (processItem st it env)).chatContexts).getD []) ∧
    (∃ sys, Event.aiCall (if st.useOllama then Backend.ollama else Backend.openai) sys ∈
      stepEvents (processItem st it env)) := by
  refine ⟨?_, ?_, ?_, ?_⟩
  · have hlow : jsLower "@character" = "@character" := by decide
    simp [triggerMatch, hlow, hsub]
  · rw [parseCommand_not_matched st it.chatGuid it.text ctx env hc hu]
  · exact processItem_normal_userTurn st it env hc hu
  · exact processItem_normal_aiCall st it env hc hu

/-- Every completed iteration keeps every context buffer at 11 turns or
fewer. -/
theorem processItem_mapBound (st : BotState) (it : QueueItem) (env : ItemEnv)
    (h : MapBound st.chatContexts) :
    MapBound (stepState (processItem st it env)).chatContexts := by
  have hctx0 : ((getA it.chatGuid st.chatContexts).getD []).length ≤ 11 := h it.chatGuid
  cases hch : jsMatch "@character" it.text with
  | some cap =>
    cases hs : env.cmdSend <;> cases hg : env.charGen <;> cases hf : env.failSend <;>
      simp [processItem, parseCommand, hch, hs, hg, hf, stepState, setA_setA,
        generateCharacterPrompt] <;>
      exact mapBound_setA h (by simp)
  | none =>
    cases huh : jsMatch "@unhinge" it.text with
    | some cap =>
      simp [processItem, parseCommand, hch, huh, stepState, setA_setA]
      exact mapBound_setA h hctx0
    | none =>
      cases hb : st.useOllama
      case false =>
        cases hm : env.openaiMsg <;> cases hr : env.replySend <;> cases hf : env.failSend <;>
          simp [processItem, parseCommand_not_matched, hch, huh, hb, hm, hr, hf, stepState,
            setA_setA] <;>
          first
            | exact mapBound_setA h (le_trans (truncCtx_length_le _) (by omega))
            | exact mapBound_setA h (concat_length_le _ _ (truncCtx_length_le _))
      case true =>
        cases hm : env.ollamaRaw <;> cases hr : env.replySend <;> cases hf : env.failSend <;>
          simp [processItem, parseCommand_not_matched, hch, huh, hb, hm, hr, hf, stepState,
            setA_setA] <;>
          first
            | exact mapBound_setA h (le_trans (truncCtx_length_le _) (by omega))
            | exact mapBound_setA h (concat_length_le _ _ (truncCtx_length_le _))

/-- The 11-turn bound is preserved across an entire drain. -/
theorem drainLoop_mapBound (q : List (QueueItem × ItemEnv)) (st : BotState)
    (h : MapBound st.chatContexts) : MapBound (drainLoop st q).st.chatContexts := by
  induction q generalizing st with
  | nil => simpa [drainLoop] using h
  | cons p rest ih =>
    obtain ⟨it, env⟩ := p
    have hstep := processItem_mapBound st it env h
    cases hp : processItem st it env with
    | ok st1 evs skip =>
      rw [hp] at hstep
      simp only [drainLoop, hp]
      exact ih st1 (by simpa [stepState] using hstep)
    | crashed st1 evs =>
      rw [hp] at hstep
      simp only [drainLoop, hp]
      simpa [stepState] using hstep

/-- When no failure-reply send can throw, the drain never crashes: it
consumes the whole queue and its trace decomposes item by item, first in
first out. -/
theorem drainLoop_no_crash (q : List (QueueItem × ItemEnv)) (st : BotState)
    (hf : ∀ p ∈ q, (Prod.snd p).failSend = SendOutcome.ok) :
    (drainLoop st q).events = drainTrace st q ∧ (drainLoop st q).crashed = false ∧
      (drainLoop st q).remaining = [] := by
  induction q generalizing st with
  | nil => simp [drainLoop, drainTrace]
  | cons p rest ih =>
    obtain ⟨it, env⟩ := p
    have hfe : env.failSend = SendOutcome.ok := hf (it, env) (by simp)
    have hok := processItem_no_crash st it env hfe
    have hrestf : ∀ p ∈ rest, (Prod.snd p).failSend = SendOutcome.ok :=
      fun p hp => hf p (List.mem_cons_of_mem _ hp)
    cases hp : processItem st it env with
    | ok st1 evs skip =>
      have hrest := ih st1 hrestf
      simp only [drainLoop, hp]
      refine ⟨?_, hrest.2.1, hrest.2.2⟩
      simp [drainTrace, itemTrace, hp, stepNext, stepState, hrest.1]
    | crashed st1 evs =>
      rw [hp] at hok
      simp [isOkStep] at hok

/-- A non-command iteration that completes always ends with the 500ms
pacing delay, whether the item succeeded or was caught failing. -/
theorem itemTrace_normal_delay (st : BotState) (it : QueueItem) (env : ItemEnv)
    (hf : env.failSend = SendOutcome.ok)
    (hc : jsMatch "@character" it.text = none) (hu : jsMatch "@unhinge" it.text = none) :
    (itemTrace st it env).getLast? = some (Event.delay 500) := by
  have hok := processItem_no_crash st it env hf
  have hskip := processItem_normal_not_skipped st it env hc hu
  unfold itemTrace
  cases hp : processItem st it env with
  | ok st1 evs skip =>
    rw [hp] at hskip
    simp [stepSkip] at hskip
    subst hskip
    simp [List.getLast?_concat]
  | crashed st1 evs =>
    rw [hp] at hok
    simp [isOkStep] at hok

/-- Claim C4, counterexample: six completed exchanges on one chat leave
its context buffer with 11 turns, exceeding the claimed bound of 10. -/
theorem context_window_counterexample :
    ((getA "c1" (drainLoop initialBot
        (List.replicate 6 (itemAva, envBase))).st.chatContexts).getD []).length = 11 ∧
    ¬ ((getA "c1" (drainLoop initialBot
        (List.replicate 6 (itemAva, envBase))).st.chatContexts).getD []).length ≤ 10 := by
  refine ⟨by decide, by decide⟩

/-- Claim C4, amended: every chat's context buffer holds at most 11 turns
at every point (the user-append step truncates the buffer to exactly the
10 most recent turns, dropping the oldest first; the assistant push can
then take it to 11 until the next user-append). -/
theorem context_window_bound :
    (∀ (q : List (QueueItem × ItemEnv)) (chat : String),
      ((getA chat (drainLoop initialBot q).st.chatContexts).getD []).length ≤ 11) ∧
    (∀ l : List Turn,
      truncCtx l = (l.reverse.take 10).reverse ∧ (truncCtx l).length ≤ 10) := by
  constructor
  · intro q chat
    have h0 : MapBound initialBot.chatContexts := by
      intro c
      simp [initialBot, getA]
    exact drainLoop_mapBound q initialBot h0 chat
  · intro l
    exact ⟨truncCtx_reverse_take l, truncCtx_length_le l⟩

/-- Claim C9, counterexample: a handled command item reaches `continue`,
which skips the 500ms pacing delay — its iteration contributes no delay
event at all. -/
theorem pacing_delay_counterexample :
    (drainLoop initialBot
        [({ chatGuid := "c1", text := "@unhinge true" }, envBase)]).events = [] ∧
    ¬ Event.delay 500 ∈
      (drainLoop initialBot
        [({ chatGuid := "c1", text := "@unhinge true" }, envBase)]).events := by
  refine ⟨by decide, by decide⟩

/-- Claim C9, amended: when no failure-reply send throws, the drain pops
items strictly first in first out, processes each to completion before
the next (the trace is the concatenation of per-item blocks in enqueue
order, so replies reach the bridge in enqueue order), and every completed
non-command iteration ends with the fixed 500ms delay whether the item
succeeded or failed; handled command iterations skip the delay via
`continue`. -/
theorem drain_fifo_and_pacing :
    (∀ (st : BotState) (q : List (QueueItem × ItemEnv)),
      (∀ p ∈ q, (Prod.snd p).failSend = SendOutcome.ok) →
      (drainLoop st q).events = drainTrace st q ∧ (drainLoop st q).crashed = false ∧
        (drainLoop st q).remaining = []) ∧
    (∀ (st : BotState) (it : QueueItem) (env : ItemEnv),
      env.failSend = SendOutcome.ok →
      jsMatch "@character" it.text = none → jsMatch "@unhinge" it.text = none →
      (itemTrace st it env).getLast? = some (Event.delay 500)) := by
  exact ⟨fun st q hf => drainLoop_no_crash q st hf, itemTrace_normal_delay⟩

/-- Witness for C9's amended theorem at concrete inputs. -/
theorem drain_fifo_and_pacing_witness :
    ((drainLoop initialBot [(itemAva, envBase)]).events =
        drainTrace initialBot [(itemAva, envBase)] ∧
      (drainLoop initialBot [(itemAva, envBase)]).crashed = false ∧
      (drainLoop initialBot [(itemAva, envBase)]).remaining = []) ∧
    (itemTrace initialBot itemAva envBase).getLast? = some (Event.delay 500) := by
  refine ⟨drain_fifo_and_pacing.1 initialBot [(itemAva, envBase)] ?_,
    drain_fifo_and_pacing.2 initialBot itemAva envBase (by decide) (by decide) (by decide)⟩
  intro p hp
  simp at hp
  rw [hp]
  decide

/-- Witness for C10's amended theorem at the text "@character" alone. -/
theorem character_without_description_falls_through_witness :
    triggerMatch "@ava" "@character" = true ∧
    (parseCommand initialBot "c9" "@character" [] envBase).handled = false ∧
    ({ role := "user", content := "@character" } : Turn) ∈
      ((getA "c9" (stepState (processItem initialBot
        { chatGuid := "c9", text := "@character" } envBase)).chatContexts).getD []) ∧
    (∃ sys, Event.aiCall (if initialBot.useOllama then Backend.ollama else Backend.openai)
        sys ∈
      stepEvents (processItem initialBot
        { chatGuid := "c9", text := "@character" } envBase)) :=
  character_without_description_falls_through initialBot "@ava"
    { chatGuid := "c9", text := "@character" } [] envBase
    (by decide) (by decide) (by decide)

end AiText
